import Mathlib

/-!
Shallow embedding of `llama_index/evaluation/multi_modal/relevancy.py`
(`MultiModalRelevancyEvaluator`).

External collaborators (the multimodal LLM, `SimpleDirectoryReader.load_data`,
`SimpleNodeParser.get_nodes_from_documents`, prompt formatting) are modelled as
injected pure functions; the evaluator logic itself is translated line by line.
Python exceptions are modelled with `Except`:
`ValueError("query, contexts, and response must be provided")` becomes
`EvalError.invalidArgument`, `ValueError("The response is invalid")` becomes
`EvalError.invalidResult`, and the `UnboundLocalError` that the interpreter
raises at line 129 when `image_nodes` was never assigned (the `if image_paths:`
branch not taken) becomes `EvalError.unboundLocalImageNodes`.
-/

namespace MMRelevancy

/-- An immutable prompt template: raw text with named substitution slots.
Mirrors `llama_index.prompts.PromptTemplate` as used by `relevancy.py`. -/
structure PromptTemplate where
  template : String
deriving DecidableEq

/-- `PromptTemplate.format(context_str=..., query_str=...)`: substitute the two
named slots of the template text. -/
def PromptTemplate.format (t : PromptTemplate) (context_str query_str : String) : String :=
  (t.template.replace "\x7bcontext_str\x7d" context_str).replace "\x7bquery_str\x7d" query_str

/-- `DEFAULT_EVAL_TEMPLATE` from `relevancy.py` (lines 14-23); the Python
line-continuation backslashes preserve the four-space indentation. -/
def DEFAULT_EVAL_TEMPLATE : PromptTemplate :=
  ⟨"Your task is to evaluate if the response for the query     is in line with the images and textual context information provided.\n" ++
   "You have two options to answer. Either YES/ NO.\n" ++
   "Answer - YES, if the response for the query     is in line with context information otherwise NO.\n" ++
   "Query and Response: \n \x7bquery_str\x7d\n" ++
   "Context: \n \x7bcontext_str\x7d\n" ++
   "Answer: "⟩

/-- `DEFAULT_REFINE_TEMPLATE` from `relevancy.py` (lines 25-37). -/
def DEFAULT_REFINE_TEMPLATE : PromptTemplate :=
  ⟨"We want to understand if the following query and response is" ++
   "in line with the context information: \n \x7bquery_str\x7d\n" ++
   "We have provided an existing YES/NO answer: \n \x7bexisting_answer\x7d\n" ++
   "We have the opportunity to refine the existing answer " ++
   "(only if needed) with some more context below.\n" ++
   "------------\n" ++
   "\x7bcontext_msg\x7d\n" ++
   "------------\n" ++
   "If the existing answer was already YES, still answer YES. " ++
   "If the information is present in the new context, answer YES. " ++
   "Otherwise answer NO.\n"⟩

/-- A raw document produced by `SimpleDirectoryReader(...).load_data()` for one
image path (opaque to the evaluator). -/
structure ImageDocument where
  content : String
deriving DecidableEq

/-- An image node produced by `SimpleNodeParser.get_nodes_from_documents`
(opaque to the evaluator; only handed to the model). -/
structure ImageNode where
  content : String
deriving DecidableEq

/-- `llama_index.evaluation.base.EvaluationResult`, restricted to the fields
this evaluator populates. `score` is a Python float taking only the exact
values `1.0` and `0.0`, so it is modelled as a rational. -/
structure EvaluationResult where
  query : String
  response : String
  passing : Bool
  score : ℚ
  feedback : String
deriving DecidableEq

/-- The three exception outcomes of `evaluate` / `aevaluate` (see module
comment). -/
inductive EvalError where
  | invalidArgument
  | unboundLocalImageNodes
  | invalidResult
deriving DecidableEq

/-- Extra keyword arguments (`**kwargs`); the Python code executes
`del kwargs` and never reads them. -/
abbrev Kwargs := List (String × String)

/-- Is `pat` a contiguous infix of `l`? Structural translation of Python's
substring test `pat in s` on the character list. -/
def hasInfix (pat : List Char) : List Char → Bool
  | [] => pat.isEmpty
  | c :: rest => pat.isPrefixOf (c :: rest) || hasInfix pat rest

/-- Line 134: `"yes" in raw_response_txt.lower()`.  ASCII lowercasing is
applied characterwise, then the substring test. -/
def containsYes (s : String) : Bool :=
  hasInfix "yes".data (s.data.map Char.toLower)

/-- Line 112: `context_str = "\n\n".join(contexts)` — the snippets joined in
order with a blank line (two newline characters) between consecutive ones. -/
def contextStr : List String → String
  | [] => ""
  | [s] => s
  | s :: rest => s ++ "\n\n" ++ contextStr rest

/-- The evaluator: the injected collaborators plus its configuration fields
(`self._multi_modal_llm`, `self._raise_error`, `self._eval_template`,
`self._refine_template`), together with the two ingestion collaborators used
when image paths are supplied. -/
structure MultiModalRelevancyEvaluator where
  llm_complete : String → List ImageNode → String
  llm_acomplete : String → List ImageNode → String
  raise_error : Bool
  eval_template : PromptTemplate
  refine_template : PromptTemplate
  load_data : String → List ImageDocument
  get_nodes_from_documents : List ImageDocument → List ImageNode

/-- Lines 112-116: build `fmt_prompt` from the validated arguments. -/
def promptOf (ev : MultiModalRelevancyEvaluator) (query response : String)
    (contexts : List String) : String :=
  let context_str := contextStr contexts
  let evaluation_query_str := "Question: " ++ query ++ "\nResponse: " ++ response
  ev.eval_template.format context_str evaluation_query_str

/-- Lines 119-125: accumulate `load_data` output over the paths in order, then
parse the accumulated documents into image nodes. -/
def imageNodesOf (ev : MultiModalRelevancyEvaluator) (image_paths : List String) :
    List ImageNode :=
  let image_documents := image_paths.foldl (fun acc p => acc ++ ev.load_data p) []
  ev.get_nodes_from_documents image_documents

/-- `MultiModalRelevancyEvaluator.evaluate` (lines 97-147).  The inner match on
`image_paths` reflects `if image_paths:` (Python truthiness: `None` and `[]`
are both falsy); in the falsy case line 129 reads the never-assigned local
`image_nodes`, so the interpreter raises `UnboundLocalError` before the model
is called. -/
def MultiModalRelevancyEvaluator.evaluate (ev : MultiModalRelevancyEvaluator)
    (query response : Option String) (contexts : Option (List String))
    (image_paths image_urls : Option (List String)) (kwargs : Kwargs) :
    Except EvalError EvaluationResult :=
  match query, contexts, response with
  | some q, some cs, some resp =>
    let fmt_prompt := promptOf ev q resp cs
    match image_paths with
    | some (p :: ps) =>
      let image_nodes := imageNodesOf ev (p :: ps)
      let raw_response_txt := ev.llm_complete fmt_prompt image_nodes
      if containsYes raw_response_txt then
        .ok { query := q, response := resp, passing := true, score := 1,
              feedback := raw_response_txt }
      else if ev.raise_error then
        .error .invalidResult
      else
        .ok { query := q, response := resp, passing := false, score := 0,
              feedback := raw_response_txt }
    | _ => .error .unboundLocalImageNodes
  | _, _, _ => .error .invalidArgument

/-- `MultiModalRelevancyEvaluator.aevaluate` (lines 149-199): textually the
same body as `evaluate` except that the model call is
`await self._multi_modal_llm.acomplete(...)`. -/
def MultiModalRelevancyEvaluator.aevaluate (ev : MultiModalRelevancyEvaluator)
    (query response : Option String) (contexts : Option (List String))
    (image_paths image_urls : Option (List String)) (kwargs : Kwargs) :
    Except EvalError EvaluationResult :=
  match query, contexts, response with
  | some q, some cs, some resp =>
    let fmt_prompt := promptOf ev q resp cs
    match image_paths with
    | some (p :: ps) =>
      let image_nodes := imageNodesOf ev (p :: ps)
      let raw_response_txt := ev.llm_acomplete fmt_prompt image_nodes
      if containsYes raw_response_txt then
        .ok { query := q, response := resp, passing := true, score := 1,
              feedback := raw_response_txt }
      else if ev.raise_error then
        .error .invalidResult
      else
        .ok { query := q, response := resp, passing := false, score := 0,
              feedback := raw_response_txt }
    | _ => .error .unboundLocalImageNodes
  | _, _, _ => .error .invalidArgument

/-- The argument of `_update_prompts`: a `PromptDictType` mapping that may
carry either, both, or neither of the two keys. -/
structure PromptDict where
  eval_template : Option PromptTemplate
  refine_template : Option PromptTemplate

/-- `_update_prompts` (lines 90-95): replace each template field only when its
key is present in the supplied mapping. -/
def MultiModalRelevancyEvaluator.update_prompts (ev : MultiModalRelevancyEvaluator)
    (prompts : PromptDict) : MultiModalRelevancyEvaluator :=
  let ev1 :=
    match prompts.eval_template with
    | some t => { ev with eval_template := t }
    | none => ev
  match prompts.refine_template with
  | some t => { ev1 with refine_template := t }
  | none => ev1

/-- A stub evaluator around a deterministic model capability `f`, used for
concrete witnesses. -/
def stubEvaluator (f : String → List ImageNode → String) (raise : Bool) :
    MultiModalRelevancyEvaluator where
  llm_complete := f
  llm_acomplete := f
  raise_error := raise
  eval_template := DEFAULT_EVAL_TEMPLATE
  refine_template := DEFAULT_REFINE_TEMPLATE
  load_data := fun p => [⟨p⟩]
  get_nodes_from_documents := fun docs => docs.map (fun d => ⟨d.content⟩)

end MMRelevancy

namespace MMRelevancy

/-- Inversion helper: any result object produced by `evaluate` has
`passing` equal to the case-insensitive yes-test of its own `feedback`, and
`score` strictly derived from `passing`. -/
lemma evaluate_ok_shape (ev : MultiModalRelevancyEvaluator)
    (query response : Option String) (contexts : Option (List String))
    (image_paths image_urls : Option (List String)) (kwargs : Kwargs)
    (r : EvaluationResult)
    (h : ev.evaluate query response contexts image_paths image_urls kwargs = Except.ok r) :
    r.passing = containsYes r.feedback ∧ r.score = (if r.passing = true then (1 : ℚ) else 0) := by
  rcases query with _ | q
  · exact absurd h (by simp [MultiModalRelevancyEvaluator.evaluate])
  rcases contexts with _ | cs
  · exact absurd h (by simp [MultiModalRelevancyEvaluator.evaluate])
  rcases response with _ | resp
  · exact absurd h (by simp [MultiModalRelevancyEvaluator.evaluate])
  rcases image_paths with _ | ips
  · exact absurd h (by simp [MultiModalRelevancyEvaluator.evaluate])
  rcases ips with _ | ⟨p, ps⟩
  · exact absurd h (by simp [MultiModalRelevancyEvaluator.evaluate])
  simp only [MultiModalRelevancyEvaluator.evaluate] at h
  by_cases hy : containsYes (ev.llm_complete (promptOf ev q resp cs) (imageNodesOf ev (p :: ps))) = true
  · rw [if_pos hy] at h
    obtain rfl := Except.ok.inj h
    simp [hy]
  · rw [if_neg hy] at h
    by_cases hr : ev.raise_error = true
    · rw [if_pos hr] at h
      exact absurd h (by simp)
    · rw [if_neg hr] at h
      obtain rfl := Except.ok.inj h
      simp at hy
      simp [hy]

/-- Inversion helper for `aevaluate`, mirroring `evaluate_ok_shape`. -/
lemma aevaluate_ok_shape (ev : MultiModalRelevancyEvaluator)
    (query response : Option String) (contexts : Option (List String))
    (image_paths image_urls : Option (List String)) (kwargs : Kwargs)
    (r : EvaluationResult)
    (h : ev.aevaluate query response contexts image_paths image_urls kwargs = Except.ok r) :
    r.passing = containsYes r.feedback ∧ r.score = (if r.passing = true then (1 : ℚ) else 0) := by
  rcases query with _ | q
  · exact absurd h (by simp [MultiModalRelevancyEvaluator.aevaluate])
  rcases contexts with _ | cs
  · exact absurd h (by simp [MultiModalRelevancyEvaluator.aevaluate])
  rcases response with _ | resp
  · exact absurd h (by simp [MultiModalRelevancyEvaluator.aevaluate])
  rcases image_paths with _ | ips
  · exact absurd h (by simp [MultiModalRelevancyEvaluator.aevaluate])
  rcases ips with _ | ⟨p, ps⟩
  · exact absurd h (by simp [MultiModalRelevancyEvaluator.aevaluate])
  simp only [MultiModalRelevancyEvaluator.aevaluate] at h
  by_cases hy : containsYes (ev.llm_acomplete (promptOf ev q resp cs) (imageNodesOf ev (p :: ps))) = true
  · rw [if_pos hy] at h
    obtain rfl := Except.ok.inj h
    simp [hy]
  · rw [if_neg hy] at h
    by_cases hr : ev.raise_error = true
    · rw [if_pos hr] at h
      exact absurd h (by simp)
    · rw [if_neg hr] at h
      obtain rfl := Except.ok.inj h
      simp at hy
      simp [hy]

/-- Claim C1: whenever `evaluate` returns a result, `passing` is true exactly
when the raw model text (returned verbatim as `feedback`) contains the
substring "yes" case-insensitively, anywhere, including inside another word;
no other signal (in particular no check for "no") enters the verdict. -/
theorem passing_iff_contains_yes (ev : MultiModalRelevancyEvaluator)
    (query response : Option String) (contexts : Option (List String))
    (image_paths image_urls : Option (List String)) (kwargs : Kwargs)
    (r : EvaluationResult)
    (h : ev.evaluate query response contexts image_paths image_urls kwargs = Except.ok r) :
    r.passing = containsYes r.feedback :=
  (evaluate_ok_shape ev query response contexts image_paths image_urls kwargs r h).1

/-- Witness for C1 at a concrete input: a model answering "It happened
yesterday." is judged passing. -/
theorem passing_iff_contains_yes_witness :
    ((stubEvaluator (fun _ _ => "It happened yesterday.") false).evaluate (some "q") (some "r")
        (some ["c"]) (some ["p"]) none [] =
      Except.ok ⟨"q", "r", true, 1, "It happened yesterday."⟩) ∧
    (⟨"q", "r", true, (1 : ℚ), "It happened yesterday."⟩ : EvaluationResult).passing =
      containsYes (⟨"q", "r", true, (1 : ℚ), "It happened yesterday."⟩ : EvaluationResult).feedback :=
  ⟨rfl, passing_iff_contains_yes (stubEvaluator (fun _ _ => "It happened yesterday.") false)
    (some "q") (some "r") (some ["c"]) (some ["p"]) none [] _ rfl⟩


/-- Claim C2: every `EvaluationResult` returned by `evaluate` or `aevaluate`
has `score = 1` when `passing` is true and `score = 0` when `passing` is
false; `score` never takes any other value and always matches `passing`. -/
theorem score_matches_passing (ev : MultiModalRelevancyEvaluator)
    (query response : Option String) (contexts : Option (List String))
    (image_paths image_urls : Option (List String)) (kwargs : Kwargs)
    (r : EvaluationResult)
    (h : ev.evaluate query response contexts image_paths image_urls kwargs = Except.ok r ∨
         ev.aevaluate query response contexts image_paths image_urls kwargs = Except.ok r) :
    r.score = (if r.passing = true then (1 : ℚ) else 0) ∧
    (r.score = 1 ↔ r.passing = true) ∧ (r.score = 0 ↔ r.passing = false) := by
  have hs : r.score = (if r.passing = true then (1 : ℚ) else 0) := by
    rcases h with h | h
    · exact (evaluate_ok_shape ev query response contexts image_paths image_urls kwargs r h).2
    · exact (aevaluate_ok_shape ev query response contexts image_paths image_urls kwargs r h).2
  refine ⟨hs, ?_, ?_⟩ <;> rcases hb : r.passing with _ | _ <;> simp [hb] at hs <;> simp [hs]

/-- Witness for C2 at a concrete failing verdict. -/
theorem score_matches_passing_witness :
    ((stubEvaluator (fun _ _ => "No.") false).evaluate (some "q") (some "r")
        (some ["c"]) (some ["p"]) none [] = Except.ok ⟨"q", "r", false, 0, "No."⟩) ∧
    (⟨"q", "r", false, (0 : ℚ), "No."⟩ : EvaluationResult).score =
      (if (⟨"q", "r", false, (0 : ℚ), "No."⟩ : EvaluationResult).passing = true then (1 : ℚ) else 0) :=
  ⟨rfl, (score_matches_passing (stubEvaluator (fun _ _ => "No.") false) (some "q") (some "r")
    (some ["c"]) (some ["p"]) none [] _ (Or.inl rfl)).1⟩

/-- Claim C3 failing input: with valid `query`, `response`, `contexts` but
`image_paths` empty or omitted, `evaluate` and `aevaluate` do not call the
model with an empty image-node list; the never-assigned local `image_nodes`
is read at the model call and the interpreter raises `UnboundLocalError`. -/
theorem empty_image_paths_unbound_local :
    (stubEvaluator (fun _ _ => "YES") false).evaluate (some "Is this a cat?")
        (some "Yes, it is a cat.") (some ["An image of a cat."]) (some []) none [] =
      Except.error EvalError.unboundLocalImageNodes ∧
    (stubEvaluator (fun _ _ => "YES") false).evaluate (some "Is this a cat?")
        (some "Yes, it is a cat.") (some ["An image of a cat."]) none none [] =
      Except.error EvalError.unboundLocalImageNodes ∧
    (stubEvaluator (fun _ _ => "YES") false).aevaluate (some "Is this a cat?")
        (some "Yes, it is a cat.") (some ["An image of a cat."]) (some []) none [] =
      Except.error EvalError.unboundLocalImageNodes ∧
    (stubEvaluator (fun _ _ => "YES") false).aevaluate (some "Is this a cat?")
        (some "Yes, it is a cat.") (some ["An image of a cat."]) none none [] =
      Except.error EvalError.unboundLocalImageNodes :=
  ⟨rfl, rfl, rfl, rfl⟩

/-- Claim C4: when `query`, `contexts`, or `response` is missing, `evaluate`
and `aevaluate` fail with the invalid-argument error for every evaluator,
hence independently of (and before) the model capability and the
image-ingestion collaborators. -/
theorem missing_argument_invalid (ev : MultiModalRelevancyEvaluator)
    (query response : Option String) (contexts : Option (List String))
    (image_paths image_urls : Option (List String)) (kwargs : Kwargs)
    (h : query = none ∨ contexts = none ∨ response = none) :
    ev.evaluate query response contexts image_paths image_urls kwargs =
      Except.error EvalError.invalidArgument ∧
    ev.aevaluate query response contexts image_paths image_urls kwargs =
      Except.error EvalError.invalidArgument := by
  rcases h with rfl | rfl | rfl
  · exact ⟨rfl, rfl⟩
  · rcases query with _ | q <;> exact ⟨rfl, rfl⟩
  · rcases query with _ | q <;> rcases contexts with _ | cs <;> exact ⟨rfl, rfl⟩

/-- Witness for C4 at `query = none`. -/
theorem missing_argument_invalid_witness :
    (stubEvaluator (fun _ _ => "YES") false).evaluate none (some "r") (some ["c"])
        (some ["p"]) none [] = Except.error EvalError.invalidArgument ∧
    (stubEvaluator (fun _ _ => "YES") false).aevaluate none (some "r") (some ["c"])
        (some ["p"]) none [] = Except.error EvalError.invalidArgument :=
  missing_argument_invalid (stubEvaluator (fun _ _ => "YES") false) none (some "r")
    (some ["c"]) (some ["p"]) none [] (Or.inl rfl)

/-- Claim C5: when the model text lacks a case-insensitive "yes", `evaluate`
with `raise_error = true` fails with the invalid-result error and produces no
result object, while `raise_error = false` returns `passing = false`,
`score = 0`, and `feedback` equal to the raw model text. -/
theorem failing_verdict (ev : MultiModalRelevancyEvaluator) (q resp : String)
    (cs : List String) (p : String) (ps : List String)
    (image_urls : Option (List String)) (kwargs : Kwargs)
    (hraw : containsYes (ev.llm_complete (promptOf ev q resp cs)
      (imageNodesOf ev (p :: ps))) = false) :
    (ev.raise_error = true →
      ev.evaluate (some q) (some resp) (some cs) (some (p :: ps)) image_urls kwargs =
        Except.error EvalError.invalidResult) ∧
    (ev.raise_error = false →
      ev.evaluate (some q) (some resp) (some cs) (some (p :: ps)) image_urls kwargs =
        Except.ok { query := q, response := resp, passing := false, score := 0,
                    feedback := ev.llm_complete (promptOf ev q resp cs)
                      (imageNodesOf ev (p :: ps)) }) := by
  constructor <;> intro hr <;>
    simp [MultiModalRelevancyEvaluator.evaluate, hraw, hr]

/-- Witness for C5 with the model answering "No, the response does not
match." under both settings of `raise_error`. -/
theorem failing_verdict_witness :
    (stubEvaluator (fun _ _ => "No, the response does not match.") true).evaluate
        (some "q") (some "r") (some ["c"]) (some ["img.png"]) none [] =
      Except.error EvalError.invalidResult ∧
    (stubEvaluator (fun _ _ => "No, the response does not match.") false).evaluate
        (some "q") (some "r") (some ["c"]) (some ["img.png"]) none [] =
      Except.ok ⟨"q", "r", false, 0, "No, the response does not match."⟩ :=
  ⟨(failing_verdict (stubEvaluator (fun _ _ => "No, the response does not match.") true)
      "q" "r" ["c"] "img.png" [] none [] (by rfl)).1 rfl,
   (failing_verdict (stubEvaluator (fun _ _ => "No, the response does not match.") false)
      "q" "r" ["c"] "img.png" [] none [] (by rfl)).2 rfl⟩

/-- Claim C6: the context block rendered into the evaluation prompt is the
snippets joined in caller-supplied order with exactly one blank line (two
newline characters) between consecutive snippets, as on the Paris example,
and `promptOf` renders the evaluation template with exactly that block. -/
theorem context_block_join :
    (∀ s : String, contextStr [s] = s) ∧
    (∀ (s t : String) (rest : List String),
      contextStr (s :: t :: rest) = s ++ "\n\n" ++ contextStr (t :: rest)) ∧
    contextStr ["Paris is in France.", "The Eiffel Tower is in Paris."] =
      "Paris is in France.\n\nThe Eiffel Tower is in Paris." ∧
    (∀ (ev : MultiModalRelevancyEvaluator) (q resp : String) (cs : List String),
      promptOf ev q resp cs =
        ev.eval_template.format (contextStr cs) ("Question: " ++ q ++ "\nResponse: " ++ resp)) :=
  ⟨fun _ => rfl, fun _ _ _ => rfl, rfl, fun _ _ _ _ => rfl⟩

/-- Claim C7: with an identical model-capability response (`acomplete`
agreeing with `complete`), `aevaluate` returns exactly the same value as
`evaluate` on all inputs, errors included: one contract, two entry points. -/
theorem aevaluate_eq_evaluate (ev : MultiModalRelevancyEvaluator)
    (h : ev.llm_acomplete = ev.llm_complete)
    (query response : Option String) (contexts : Option (List String))
    (image_paths image_urls : Option (List String)) (kwargs : Kwargs) :
    ev.aevaluate query response contexts image_paths image_urls kwargs =
      ev.evaluate query response contexts image_paths image_urls kwargs := by
  unfold MultiModalRelevancyEvaluator.aevaluate MultiModalRelevancyEvaluator.evaluate
  rw [h]

/-- Witness for C7 on a stub whose sync and async completions agree. -/
theorem aevaluate_eq_evaluate_witness :
    (stubEvaluator (fun _ _ => "YES") false).aevaluate (some "q") (some "r") (some ["c"])
        (some ["p"]) none [] =
      (stubEvaluator (fun _ _ => "YES") false).evaluate (some "q") (some "r") (some ["c"])
        (some ["p"]) none [] :=
  aevaluate_eq_evaluate (stubEvaluator (fun _ _ => "YES") false) rfl
    (some "q") (some "r") (some ["c"]) (some ["p"]) none []

/-- Claim C8: two `evaluate` calls with identical arguments against the same
(deterministic) collaborators yield identical results in every field. -/
theorem evaluate_deterministic (ev : MultiModalRelevancyEvaluator)
    (query response : Option String) (contexts : Option (List String))
    (image_paths image_urls : Option (List String)) (kwargs : Kwargs)
    (r1 r2 : EvaluationResult)
    (h1 : ev.evaluate query response contexts image_paths image_urls kwargs = Except.ok r1)
    (h2 : ev.evaluate query response contexts image_paths image_urls kwargs = Except.ok r2) :
    r1.query = r2.query ∧ r1.response = r2.response ∧ r1.passing = r2.passing ∧
    r1.score = r2.score ∧ r1.feedback = r2.feedback := by
  obtain rfl := Except.ok.inj (h1.symm.trans h2)
  exact ⟨rfl, rfl, rfl, rfl, rfl⟩

/-- Witness for C8 at a concrete passing call. -/
theorem evaluate_deterministic_witness :
    ((stubEvaluator (fun _ _ => "YES") false).evaluate (some "q") (some "r") (some ["c"])
        (some ["p"]) none [] = Except.ok ⟨"q", "r", true, 1, "YES"⟩) ∧
    (⟨"q", "r", true, (1 : ℚ), "YES"⟩ : EvaluationResult).feedback =
      (⟨"q", "r", true, (1 : ℚ), "YES"⟩ : EvaluationResult).feedback :=
  ⟨rfl, (evaluate_deterministic (stubEvaluator (fun _ _ => "YES") false) (some "q") (some "r")
    (some ["c"]) (some ["p"]) none [] _ _ rfl rfl).2.2.2.2⟩

/-- Claim C9: `_update_prompts` replaces only the keys present in the
supplied partial mapping: an absent `eval_template` key leaves the evaluation
template unchanged, an absent `refine_template` key leaves the refinement
template unchanged, an empty mapping changes nothing, and the remaining
configuration fields are never touched. -/
theorem update_prompts_frame (ev : MultiModalRelevancyEvaluator) (p : PromptDict) :
    (p.eval_template = none → (ev.update_prompts p).eval_template = ev.eval_template) ∧
    (p.refine_template = none → (ev.update_prompts p).refine_template = ev.refine_template) ∧
    (∀ t, p.eval_template = some t → (ev.update_prompts p).eval_template = t) ∧
    (∀ t, p.refine_template = some t → (ev.update_prompts p).refine_template = t) ∧
    (p.eval_template = none ∧ p.refine_template = none → ev.update_prompts p = ev) ∧
    (ev.update_prompts p).raise_error = ev.raise_error ∧
    (ev.update_prompts p).llm_complete = ev.llm_complete ∧
    (ev.update_prompts p).llm_acomplete = ev.llm_acomplete := by
  obtain ⟨pe, pr⟩ := p
  rcases pe with _ | te <;> rcases pr with _ | tr <;>
    simp [MultiModalRelevancyEvaluator.update_prompts]

/-- Witness for C9: updating only the evaluation template. -/
theorem update_prompts_frame_witness :
    ((stubEvaluator (fun _ _ => "YES") false).update_prompts ⟨some ⟨"E"⟩, none⟩).refine_template =
      (stubEvaluator (fun _ _ => "YES") false).refine_template ∧
    ((stubEvaluator (fun _ _ => "YES") false).update_prompts ⟨some ⟨"E"⟩, none⟩).eval_template =
      ⟨"E"⟩ ∧
    ((stubEvaluator (fun _ _ => "YES") false).update_prompts ⟨none, none⟩) =
      stubEvaluator (fun _ _ => "YES") false :=
  ⟨(update_prompts_frame (stubEvaluator (fun _ _ => "YES") false) ⟨some ⟨"E"⟩, none⟩).2.1 rfl,
   (update_prompts_frame (stubEvaluator (fun _ _ => "YES") false) ⟨some ⟨"E"⟩, none⟩).2.2.1 ⟨"E"⟩ rfl,
   (update_prompts_frame (stubEvaluator (fun _ _ => "YES") false) ⟨none, none⟩).2.2.2.2.1 ⟨rfl, rfl⟩⟩

/-- Claim C10: extra keyword arguments are accepted and discarded
(`del kwargs`); the outcome of `evaluate` and `aevaluate` is identical for
any two kwargs values, errors included. -/
theorem kwargs_ignored (ev : MultiModalRelevancyEvaluator)
    (query response : Option String) (contexts : Option (List String))
    (image_paths image_urls : Option (List String)) (k1 k2 : Kwargs) :
    ev.evaluate query response contexts image_paths image_urls k1 =
      ev.evaluate query response contexts image_paths image_urls k2 ∧
    ev.aevaluate query response contexts image_paths image_urls k1 =
      ev.aevaluate query response contexts image_paths image_urls k2 :=
  ⟨rfl, rfl⟩


end MMRelevancy
